import Mathlib

/-!
Verification of the liveness-check core (`src/utils/liveness.ts`).

Shallow embedding conventions:
* JS numbers are modelled as exact rationals (`ℚ`); pixel bytes from
  `Uint8ClampedArray` are naturals (0..255) cast into `ℚ` where arithmetic
  occurs.  `Math.floor` on the (non-negative) quantities appearing here is
  `Nat.floor`.
* JS produces `NaN` from `0/0` when a region of the frame is empty; every
  comparison against `NaN` is false.  We model a possibly-NaN variance as
  `Option ℚ` (`none` = NaN) and make the detector's comparison false
  whenever an operand is `none`, which is exactly the NaN propagation of
  the source.
* Timing (`Date.now`, `setTimeout`) is abstracted: a retry loop bounded by a
  wall-clock deadline is modelled by the finite list of evaluator outcomes
  the loop observes before its deadline expires; the loop stops at the first
  success, which is `List.any`.
* The platform `FaceDetector` capability is external and nondeterministic;
  it is modelled as an abstract outcome parameter.
* One call in the core can throw: `ctx.getImageData(0, 0, width, height)`
  (source line 34) throws an `IndexSizeError` DOMException when either
  canvas dimension is zero, and it sits outside the `try`/`catch`, which
  wraps only the platform detector path.  The full `detectFaceBox` is
  therefore embedded as an `Except`, erroring exactly on that path; for
  frames with both dimensions positive the pixel read is total and
  `detectFaceBoxHeuristic` models source lines 34-70 directly.
-/

/-- A captured RGBA frame: `data i` is the byte at flat index `i`
(`getImageData(...).data[i]`). -/
structure Frame where
  width : ℕ
  height : ℕ
  data : ℕ → ℕ

/-- The `FaceBox {x, y, width, height}` record from the source.  Fields are JS numbers
(the platform detector path may produce non-integral coordinates). -/
structure FaceBox where
  x : ℚ
  y : ℚ
  width : ℚ
  height : ℚ
deriving DecidableEq, Repr

/-- Luminance `(r + g + b) / 3` of pixel `(x, y)`, reading the flat RGBA
index `(y * width + x) * 4` exactly as the source's `region` helper does. -/
def luminance (f : Frame) (x y : ℕ) : ℚ :=
  let i := (y * f.width + x) * 4
  ((f.data i : ℚ) + (f.data (i + 1) : ℚ) + (f.data (i + 2) : ℚ)) / 3

/-- Sum of `g (luminance)` over the rectangle `[x0, x0+w) × [y0, y0+h)`:
the accumulation loop of the source's `region` helper. -/
def regionSum (f : Frame) (x0 y0 w h : ℕ) (g : ℚ → ℚ) : ℚ :=
  ((List.range h).map fun dy =>
    ((List.range w).map fun dx => g (luminance f (x0 + dx) (y0 + dy))).sum).sum

/-- The `variance` field computed by the source's `region` helper:
`sumSq / count - mean * mean` with `count = w * h`.  When the region is
empty the source divides `0 / 0`, giving NaN; we return `none` there.
(The helper also returns `mean`, which no caller uses.) -/
def regionVariance (f : Frame) (x0 y0 w h : ℕ) : Option ℚ :=
  if w * h = 0 then none
  else
    let count : ℚ := (w * h : ℕ)
    let mean := regionSum f x0 y0 w h (fun v => v) / count
    some (regionSum f x0 y0 w h (fun v => v * v) / count - mean * mean)

/-- The source's `cx = Math.floor(width * 0.2)`. -/
def cxOf (f : Frame) : ℕ := ⌊(f.width : ℚ) * (2 / 10)⌋₊

/-- The source's `cy = Math.floor(height * 0.2)`. -/
def cyOf (f : Frame) : ℕ := ⌊(f.height : ℚ) * (2 / 10)⌋₊

/-- The source's `cw = Math.floor(width * 0.6)`. -/
def cwOf (f : Frame) : ℕ := ⌊(f.width : ℚ) * (6 / 10)⌋₊

/-- The source's `ch = Math.floor(height * 0.6)`. -/
def chOf (f : Frame) : ℕ := ⌊(f.height : ℚ) * (6 / 10)⌋₊

/-- Variance of the central region `region(cx, cy, cw, ch)`. -/
def centerVariance (f : Frame) : Option ℚ :=
  regionVariance f (cxOf f) (cyOf f) (cwOf f) (chOf f)

/-- The source's `edgeVar`: the mean of the four edge strips' variances,
`edges.reduce((a, e) => a + e.variance, 0) / edges.length`.  NaN in any
summand makes the mean NaN, hence the `none` propagation. -/
def meanEdgeVariance (f : Frame) : Option ℚ :=
  match regionVariance f 0 0 (cxOf f) f.height,
        regionVariance f (cxOf f + cwOf f) 0 (f.width - (cxOf f + cwOf f)) f.height,
        regionVariance f 0 0 f.width (cyOf f),
        regionVariance f 0 (cyOf f + chOf f) f.width (f.height - (cyOf f + chOf f)) with
  | some e1, some e2, some e3, some e4 => some ((e1 + e2 + e3 + e4) / 4)
  | _, _, _, _ => none

/-- The naive luminance-variance fallback of `detectFaceBox` (source lines
32-71): declare a face iff `center.variance > edgeVar * 1.15`, returning
the central region as the box.  A NaN operand (empty region) makes the
strict comparison false, hence the `none` cases. -/
def detectFaceBoxHeuristic (f : Frame) : Option FaceBox :=
  match centerVariance f, meanEdgeVariance f with
  | some cv, some ev =>
      if cv > ev * (115 / 100) then
        some ⟨(cxOf f : ℚ), (cyOf f : ℚ), (cwOf f : ℚ), (chOf f : ℚ)⟩
      else none
  | _, _ => none

/-- Outcome of the experimental platform `FaceDetector` path of
`detectFaceBox`: the capability may be absent (`supported.faceDetector`
false), construction/detection may throw (caught by the source), the
detection list may be empty, or a face may be found. -/
inductive PlatformOutcome where
  | unsupported
  | errored
  | noFaces
  | found (box : FaceBox)
deriving DecidableEq, Repr

/-- The exception the browser can raise out of `detectFaceBox`:
`ctx.getImageData` with a zero-sized rectangle throws `IndexSizeError`. -/
inductive JsError where
  | indexSizeError
deriving DecidableEq, Repr

/-- Full `detectFaceBox` (source lines 15-71).  `ctxOk` is whether
`canvas.getContext('2d')` returned a context; when it does not, the source
returns `null` at once.  Every non-`found` platform outcome falls through
to the fallback, whose first step, `ctx.getImageData(0, 0, width, height)`
at line 34, lies outside the `try`/`catch` and throws `IndexSizeError`
when either canvas dimension is zero; with both dimensions positive the
read succeeds and the heuristic decides. -/
def detectFaceBox (ctxOk : Bool) (platform : PlatformOutcome) (f : Frame) :
    Except JsError (Option FaceBox) :=
  if ctxOk = false then .ok none
  else
    match platform with
    | .found box => .ok (some box)
    | _ =>
        if f.width = 0 ∨ f.height = 0 then .error .indexSizeError
        else .ok (detectFaceBoxHeuristic f)

-- Sanity checks (uniform frames have zero variance everywhere, so no face).
example : centerVariance ⟨5, 5, fun _ => 7⟩ = some 0 := by
  norm_num [centerVariance, regionVariance, regionSum, luminance, cxOf, cyOf,
    cwOf, chOf, List.range_succ]
example : detectFaceBoxHeuristic ⟨5, 5, fun _ => 7⟩ = none := by
  norm_num [detectFaceBoxHeuristic, centerVariance, meanEdgeVariance,
    regionVariance, regionSum, luminance, cxOf, cyOf, cwOf, chOf,
    List.range_succ]

/-! ## Movement challenge (`checkMovement`, source lines 105-114) -/

/-- The direction argument of `checkMovement`. -/
inductive Direction where
  | left
  | right
deriving DecidableEq, Repr

/-- Movement check `checkMovement`: the source captures two face boxes 700ms apart (the
two `detectFaceBox` results are the arguments here), fails when either is
`null`, and otherwise compares `dx = box2.x - box1.x` against the 10px
threshold in the requested direction. -/
def checkMovement (box1 box2 : Option FaceBox) (direction : Direction) : Bool :=
  match box1, box2 with
  | some b1, some b2 =>
      let dx := b2.x - b1.x
      match direction with
      | .left => decide (dx < -10)
      | .right => decide (dx > 10)
  | _, _ => false

/-! ## Blink challenge (`checkBlink`, source lines 116-164) -/

/-- The eye band computed by `computeEyeBand` inside `checkBlink`. -/
structure EyeBand where
  ex : ℕ
  ey : ℕ
  ew : ℕ
  eh : ℕ
deriving DecidableEq, Repr

/-- Eye band of a face box, per `computeEyeBand`: `ex = max(0, floor(x))`, `ey = max(0, floor(y +
height * 0.25))`, `ew = floor(width)`, `eh = floor(height * 0.25)`.
`Nat.floor` sends a negative rational to `0`, which coincides with the
source's `Math.max(0, Math.floor(..))` for `ex`/`ey`; a negative `ew`/`eh`
in the source makes the sampling loop empty, exactly as `0` does here. -/
def computeEyeBand (box : FaceBox) : EyeBand :=
  { ex := ⌊box.x⌋₊
    ey := ⌊box.y + box.height * (25 / 100)⌋₊
    ew := ⌊box.width⌋₊
    eh := ⌊box.height * (25 / 100)⌋₊ }

/-- The `changed` counter of `diffInRegion`: the number of pixels of the
rectangle whose per-channel-averaged absolute difference
`(|dr| + |dg| + |db|) / 3` exceeds 18.  Indices are flattened with the
first frame's width, as in the source (`const w = a.width`). -/
def diffCount (a b : Frame) (rx ry rw rh : ℕ) : ℕ :=
  ((List.range rh).map fun dy =>
    ((List.range rw).map fun dx =>
      let i := ((ry + dy) * a.width + (rx + dx)) * 4
      let d : ℚ := (|(a.data i : ℚ) - (b.data i : ℚ)| +
        |(a.data (i + 1) : ℚ) - (b.data (i + 1) : ℚ)| +
        |(a.data (i + 2) : ℚ) - (b.data (i + 2) : ℚ)|) / 3
      if d > 18 then 1 else 0).sum).sum

/-- Fraction `diffInRegion`: fraction of pixels in the rectangle that changed by
more than the noise floor; `total = rw * rh` and the source returns `0`
when `total === 0`. -/
def diffInRegion (a b : Frame) (rx ry rw rh : ℕ) : ℚ :=
  let total := rw * rh
  if total = 0 then 0 else (diffCount a b rx ry rw rh : ℚ) / (total : ℚ)

/-- One `captureToCanvas` + `detectFaceBox` observation inside `checkBlink`:
the canvas pixels after the capture and the face box the detector reported
on them. -/
structure Sample where
  frame : Frame
  box : Option FaceBox

/-- Blink check `checkBlink` over the stream of samples it would capture (sample 0 at
entry, then two more 140ms apart).  Returns the verdict together with the
number of samples actually captured: the source returns `false` right
after the first detection when no face box is found (one capture), and
otherwise captures all three frames and compares
`max(score1, score2) > 0.06`. -/
def checkBlink (samples : ℕ → Sample) : Bool × ℕ :=
  let s0 := samples 0
  match s0.box with
  | none => (false, 1)
  | some firstBox =>
      let eb := computeEyeBand firstBox
      let a := s0.frame
      let b := (samples 1).frame
      let score1 := diffInRegion a b eb.ex eb.ey eb.ew eb.eh
      let c := (samples 2).frame
      let score2 := diffInRegion b c eb.ex eb.ey eb.ew eb.eh
      let score := max score1 score2
      (decide (score > 6 / 100), 3)

example :
    checkMovement (some ⟨100, 50, 200, 200⟩) (some ⟨80, 50, 200, 200⟩)
      .left = true := by
  norm_num [checkMovement]
example :
    checkMovement (some ⟨100, 50, 200, 200⟩) (some ⟨80, 50, 200, 200⟩)
      .right = false := by
  norm_num [checkMovement]
example : computeEyeBand ⟨0, 0, 2, 4⟩ = ⟨0, 1, 2, 1⟩ := by
  norm_num [computeEyeBand]

/-! ## Sequence controller (`runLivenessSequence`, source lines 83-189)

Timing abstraction: `waitForFacePresent(5000)` polls `detectFaceBox` every
200ms until the 5000ms window closes, returning `true` at the first
detection; each challenge loop re-runs its evaluator every 300ms until the
5000ms deadline, keeping the first success.  An `Env` records, for the
prepare gate and for each challenge, the finite list of evaluator outcomes
the loop would observe before its deadline; stopping at the first success
makes the loop's final `passed` exactly `List.any id` of that list. -/

/-- An entry of `LivenessResult.steps`.  The sequence controller never
sets `details`, so it is always `none` here. -/
structure Step where
  name : String
  passed : Bool
  details : Option String := none
deriving DecidableEq, Repr

instance : Inhabited Step := ⟨⟨"", false, none⟩⟩

/-- The terminal `LivenessResult` value. -/
structure LivenessResult where
  alive : Bool
  reason : Option String
  steps : List Step
deriving DecidableEq, Repr

/-- The `Challenge` union type; `prepare` is the gate run before the
scored challenges. -/
inductive Challenge where
  | prepare
  | blink
  | turnLeft
  | turnRight
deriving DecidableEq, Repr

/-- The string of each `Challenge` member. -/
def Challenge.name : Challenge → String
  | .prepare => "prepare"
  | .blink => "blink"
  | .turnLeft => "turn-left"
  | .turnRight => "turn-right"

/-- The outcomes each retry loop observes before its deadline. -/
structure Env where
  attempts : Challenge → List Bool

/-- Final value of the loop flag: `true` iff some attempt inside the
window succeeded (the loops stop at the first success). -/
def passes (env : Env) (c : Challenge) : Bool := (env.attempts c).any id

/-- The reason string of source line 170 (the localized
`no_face_detected` message). -/
def noFaceMsg : String :=
  "Rosto não detectado. Centralize seu rosto e tente novamente."

/-- The reason string of source line 185: `Falha no desafio: ${ch}`
(the localized `challenge_failed(name)` message). -/
def challengeFailMsg (name : String) : String := "Falha no desafio: " ++ name

/-- The ordered scored challenge list of source line 172. -/
def challenges : List Challenge := [.blink, .turnLeft, .turnRight]

/-- The `for (const ch of challenges)` loop of source lines 174-186:
evaluate the challenge until its deadline, append its `Step`, and stop
with a failure result at the first failed challenge; after the loop,
succeed. -/
def runChallenges (env : Env) (steps : List Step) : List Challenge → LivenessResult
  | [] => { alive := true, reason := none, steps := steps }
  | c :: rest =>
      let passed := passes env c
      let steps := steps ++ [⟨c.name, passed, none⟩]
      if passed then runChallenges env steps rest
      else { alive := false, reason := some (challengeFailMsg c.name), steps := steps }

/-- Top-level `runLivenessSequence`: run the prepare gate (`waitForFacePresent(5000)`),
record its `Step`, fail with the no-face reason when it did not pass, and
otherwise run the scored challenges in order. -/
def runLivenessSequence (env : Env) : LivenessResult :=
  let ready := passes env .prepare
  let steps : List Step := [⟨"prepare", ready, none⟩]
  if ready then runChallenges env steps challenges
  else { alive := false, reason := some noFaceMsg, steps := steps }

/-- The full step order a run can traverse: the prepare gate followed by
the scored challenges. -/
def stepOrder : List Challenge := [.prepare, .blink, .turnLeft, .turnRight]

/-- The reason message the controller emits for a failure at the given
step, keyed by the step's name: the prepare gate fails with `noFaceMsg`,
a scored challenge with `challengeFailMsg` of its name. -/
def failureMsgFor (name : String) : String :=
  if name = "prepare" then noFaceMsg else challengeFailMsg name

/-- Name of the first non-passed step of a list (`""` when all passed). -/
def firstFailingName (steps : List Step) : String :=
  match steps.find? (fun s => !s.passed) with
  | some s => s.name
  | none => ""

/-- Result of a run as a function of the four loop outcomes: the explicit
case tree of the control flow of `runLivenessSequence`. -/
def resultOf : Bool → Bool → Bool → Bool → LivenessResult
  | false, _, _, _ =>
      ⟨false, some noFaceMsg, [⟨"prepare", false, none⟩]⟩
  | true, false, _, _ =>
      ⟨false, some (challengeFailMsg "blink"),
        [⟨"prepare", true, none⟩, ⟨"blink", false, none⟩]⟩
  | true, true, false, _ =>
      ⟨false, some (challengeFailMsg "turn-left"),
        [⟨"prepare", true, none⟩, ⟨"blink", true, none⟩,
          ⟨"turn-left", false, none⟩]⟩
  | true, true, true, false =>
      ⟨false, some (challengeFailMsg "turn-right"),
        [⟨"prepare", true, none⟩, ⟨"blink", true, none⟩,
          ⟨"turn-left", true, none⟩, ⟨"turn-right", false, none⟩]⟩
  | true, true, true, true =>
      ⟨true, none,
        [⟨"prepare", true, none⟩, ⟨"blink", true, none⟩,
          ⟨"turn-left", true, none⟩, ⟨"turn-right", true, none⟩]⟩

/-- Normal form of a run in terms of the four loop outcomes. -/
theorem runLivenessSequence_eq (env : Env) :
    runLivenessSequence env =
      resultOf (passes env .prepare) (passes env .blink)
        (passes env .turnLeft) (passes env .turnRight) := by
  simp only [runLivenessSequence, runChallenges, challenges, resultOf,
    Challenge.name]
  cases passes env .prepare <;> cases passes env .blink <;>
    cases passes env .turnLeft <;> cases passes env .turnRight <;> rfl

example :
    runLivenessSequence ⟨fun _ => [true]⟩ =
      ⟨true, none,
        [⟨"prepare", true, none⟩, ⟨"blink", true, none⟩,
          ⟨"turn-left", true, none⟩, ⟨"turn-right", true, none⟩]⟩ := by
  decide
example :
    runLivenessSequence ⟨fun c => if c = .turnLeft then [false] else [true]⟩ =
      ⟨false, some "Falha no desafio: turn-left",
        [⟨"prepare", true, none⟩, ⟨"blink", true, none⟩,
          ⟨"turn-left", false, none⟩]⟩ := by
  decide

-- The four failure messages are pairwise distinct, so the reason string
-- identifies the failing step.
example :
    (["prepare", "blink", "turn-left", "turn-right"].map failureMsgFor).Nodup := by
  decide

/-! ## Claims -/

/-- C1: for every completed run of `runLivenessSequence`, `alive = true`
iff every recorded step passed; `reason` is present iff `alive = false`,
in which case there is exactly one failing step and `reason` is the
failure message keyed by the first failing step's name. -/
theorem c1_result_invariant (env : Env) :
    ((runLivenessSequence env).alive = true ↔
      (runLivenessSequence env).steps.all (fun s => s.passed) = true) ∧
    ((runLivenessSequence env).reason.isSome = true ↔
      (runLivenessSequence env).alive = false) ∧
    ((runLivenessSequence env).alive = false →
      ((runLivenessSequence env).steps.filter (fun s => !s.passed)).length = 1 ∧
      (runLivenessSequence env).reason =
        some (failureMsgFor (firstFailingName (runLivenessSequence env).steps))) := by
  rw [runLivenessSequence_eq]
  cases passes env .prepare <;> cases passes env .blink <;>
    cases passes env .turnLeft <;> cases passes env .turnRight <;> decide

/-- The environment of a run whose prepare gate passes and whose every
scored challenge fails (so the run fails at the blink step). -/
def envBlinkFails : Env := ⟨fun c => if c = .prepare then [true] else [false]⟩

theorem c1_result_invariant_witness :
    ((runLivenessSequence envBlinkFails).steps.filter
      (fun s => !s.passed)).length = 1 ∧
    (runLivenessSequence envBlinkFails).reason =
      some (failureMsgFor (firstFailingName (runLivenessSequence envBlinkFails).steps)) :=
  (c1_result_invariant envBlinkFails).2.2 (by decide)

/-- C2: over the configured step order (the prepare gate followed by the
three scored challenges), a run whose first `k - 1` step loops succeed and
whose `k`-th step loop fails returns exactly `k` step entries, of which the
first `k - 1` passed and the `k`-th failed, with `reason` the failure
message keyed by that `k`-th step's name. -/
theorem c2_fail_at_step_k (env : Env) (k : ℕ) (h1 : 1 ≤ k) (h4 : k ≤ 4)
    (hpass : ∀ i, i < k - 1 → passes env (stepOrder.getD i .prepare) = true)
    (hfail : passes env (stepOrder.getD (k - 1) .prepare) = false) :
    (runLivenessSequence env).steps.length = k ∧
    (∀ i, i < k - 1 →
      ((runLivenessSequence env).steps.getD i default).passed = true) ∧
    ((runLivenessSequence env).steps.getD (k - 1) default).passed = false ∧
    (runLivenessSequence env).reason =
      some (failureMsgFor (stepOrder.getD (k - 1) .prepare).name) := by
  interval_cases k
  · have h0 : passes env .prepare = false := by simpa [stepOrder] using hfail
    rw [runLivenessSequence_eq, h0]
    exact ⟨rfl, fun i hi => absurd hi (by omega), rfl, rfl⟩
  · have h0 : passes env .prepare = true := by
      simpa [stepOrder] using hpass 0 (by norm_num)
    have hb : passes env .blink = false := by simpa [stepOrder] using hfail
    rw [runLivenessSequence_eq, h0, hb]
    exact ⟨rfl, fun i hi => by interval_cases i; rfl, rfl, rfl⟩
  · have h0 : passes env .prepare = true := by
      simpa [stepOrder] using hpass 0 (by norm_num)
    have hb : passes env .blink = true := by
      simpa [stepOrder] using hpass 1 (by norm_num)
    have hl : passes env .turnLeft = false := by simpa [stepOrder] using hfail
    rw [runLivenessSequence_eq, h0, hb, hl]
    exact ⟨rfl, fun i hi => by interval_cases i <;> rfl, rfl, rfl⟩
  · have h0 : passes env .prepare = true := by
      simpa [stepOrder] using hpass 0 (by norm_num)
    have hb : passes env .blink = true := by
      simpa [stepOrder] using hpass 1 (by norm_num)
    have hl : passes env .turnLeft = true := by
      simpa [stepOrder] using hpass 2 (by norm_num)
    have hr : passes env .turnRight = false := by simpa [stepOrder] using hfail
    rw [runLivenessSequence_eq, h0, hb, hl, hr]
    exact ⟨rfl, fun i hi => by interval_cases i <;> rfl, rfl, rfl⟩

theorem c2_fail_at_step_k_witness :
    (runLivenessSequence envBlinkFails).steps.length = 2 ∧
    (∀ i, i < 2 - 1 →
      ((runLivenessSequence envBlinkFails).steps.getD i default).passed = true) ∧
    ((runLivenessSequence envBlinkFails).steps.getD (2 - 1) default).passed = false ∧
    (runLivenessSequence envBlinkFails).reason =
      some (failureMsgFor (stepOrder.getD (2 - 1) .prepare).name) :=
  c2_fail_at_step_k envBlinkFails 2 (by norm_num) (by norm_num)
    (fun i hi => by interval_cases i; decide) (by decide)

/-- The environment of a run whose prepare gate never sees a face. -/
def envNoFace : Env := ⟨fun _ => [false]⟩

/-- C3 counterexample: when no face is ever detected during the prepare
window, the run's `reason` is the localized message of source line 170,
not the literal string `"no_face_detected"`, so the claimed result value
is not the returned one. -/
theorem c3_counterexample :
    runLivenessSequence envNoFace ≠
      ⟨false, some "no_face_detected", [⟨"prepare", false, none⟩]⟩ := by
  decide

/-- C3 amended: if no detection attempt during the prepare window ever
yields a face box, the run returns exactly `alive = false`, `reason` the
localized no-face message (the message keyed by `no_face_detected`), and
the single step entry `{name := "prepare", passed := false}`. -/
theorem c3_no_face_result (env : Env)
    (h : (env.attempts .prepare).any id = false) :
    runLivenessSequence env =
      ⟨false, some noFaceMsg, [⟨"prepare", false, none⟩]⟩ := by
  rw [runLivenessSequence_eq]
  have h0 : passes env .prepare = false := h
  rw [h0]
  rfl

theorem c3_no_face_result_witness :
    runLivenessSequence envNoFace =
      ⟨false, some noFaceMsg, [⟨"prepare", false, none⟩]⟩ :=
  c3_no_face_result envNoFace (by decide)

/-- The spec's success criterion for a horizontal displacement `dx` in a
requested direction: `dx < -10` for left, `dx > 10` for right. -/
def movementCriterion (d : Direction) (dx : ℚ) : Prop :=
  match d with
  | .left => dx < -10
  | .right => dx > 10

/-- C4: the movement check succeeds iff both samples carry a detected box
and the displacement `dx = x1 - x0` meets the requested direction's strict
10px criterion; a missing box fails, `dx` of exactly `-10` or `10` fails,
and no pair of boxes satisfies both directions at once. -/
theorem c4_movement (box1 box2 : Option FaceBox) :
    (∀ d, checkMovement box1 box2 d = true ↔
      ∃ b1 b2, box1 = some b1 ∧ box2 = some b2 ∧
        movementCriterion d (b2.x - b1.x)) ∧
    (∀ d, box1 = none ∨ box2 = none → checkMovement box1 box2 d = false) ∧
    (∀ b1 b2 d, b2.x - b1.x = -10 ∨ b2.x - b1.x = 10 →
      checkMovement (some b1) (some b2) d = false) ∧
    ¬(checkMovement box1 box2 .left = true ∧
      checkMovement box1 box2 .right = true) := by
  refine ⟨?_, ?_, ?_, ?_⟩
  · intro d
    cases box1 with
    | none => simp [checkMovement]
    | some b1 =>
        cases box2 with
        | none => simp [checkMovement]
        | some b2 => cases d <;> simp [checkMovement, movementCriterion]
  · rintro d (rfl | rfl) <;> cases d <;>
      first
      | rfl
      | (cases box1 <;> rfl)
  · intro b1 b2 d h
    rcases h with h | h <;> cases d <;> simp [checkMovement, h]
  · rintro ⟨hl, hr⟩
    cases box1 with
    | none => simp [checkMovement] at hl
    | some b1 =>
        cases box2 with
        | none => simp [checkMovement] at hl
        | some b2 =>
            simp [checkMovement] at hl hr
            linarith

theorem c4_movement_witness :
    checkMovement (some ⟨0, 0, 1, 1⟩) (some ⟨10, 0, 1, 1⟩) .right = false :=
  (c4_movement (some ⟨0, 0, 1, 1⟩) (some ⟨10, 0, 1, 1⟩)).2.2.1
    ⟨0, 0, 1, 1⟩ ⟨10, 0, 1, 1⟩ .right (Or.inr (by norm_num))

/-- C5: whenever the central and edge variances are defined (non-empty
regions, so no NaN), the heuristic declares a face iff the central
variance strictly exceeds `1.15` times the mean edge variance; exact
equality with the threshold yields `none`. -/
theorem c5_heuristic_threshold (f : Frame) (cv ev : ℚ)
    (hc : centerVariance f = some cv) (he : meanEdgeVariance f = some ev) :
    ((detectFaceBoxHeuristic f).isSome = true ↔ cv > ev * (115 / 100)) ∧
    (cv = ev * (115 / 100) → detectFaceBoxHeuristic f = none) := by
  constructor
  · simp only [detectFaceBoxHeuristic, hc, he]
    split <;> simp_all
  · intro hEq
    simp only [detectFaceBoxHeuristic, hc, he, hEq]
    simp

/-- A uniform 5×5 frame: every region's variance is `0`. -/
def frameFlat5 : Frame := ⟨5, 5, fun _ => 7⟩

theorem c5_heuristic_threshold_witness :
    ((detectFaceBoxHeuristic frameFlat5).isSome = true ↔
      (0 : ℚ) > 0 * (115 / 100)) ∧
    ((0 : ℚ) = 0 * (115 / 100) → detectFaceBoxHeuristic frameFlat5 = none) :=
  c5_heuristic_threshold frameFlat5 0 0
    (by norm_num [centerVariance, regionVariance, regionSum, luminance,
      cxOf, cyOf, cwOf, chOf, frameFlat5, List.range_succ])
    (by norm_num [meanEdgeVariance, regionVariance, regionSum, luminance,
      cxOf, cyOf, cwOf, chOf, frameFlat5, List.range_succ])

/-- Comparing a frame to itself changes no pixel. -/
theorem diffCount_self (f : Frame) (rx ry rw rh : ℕ) :
    diffCount f f rx ry rw rh = 0 := by
  unfold diffCount
  refine List.sum_eq_zero fun x hx => ?_
  simp only [List.mem_map] at hx
  obtain ⟨dy, _, rfl⟩ := hx
  refine List.sum_eq_zero fun x hx => ?_
  simp only [List.mem_map] at hx
  obtain ⟨dx, _, rfl⟩ := hx
  norm_num

/-- The fraction of changed pixels of identical frames is `0`. -/
theorem diffInRegion_self (f : Frame) (rx ry rw rh : ℕ) :
    diffInRegion f f rx ry rw rh = 0 := by
  simp [diffInRegion, diffCount_self]

/-- C6: when the first sample carries a face box, the blink check
computes the changed-pixel fraction of the eye band between samples 0-1
and samples 1-2 and succeeds iff the larger fraction exceeds 6%; in
particular a first pair whose fraction exceeds 6% makes it succeed, and
three identical frames make it fail. -/
theorem c6_blink (samples : ℕ → Sample) (box : FaceBox)
    (hbox : (samples 0).box = some box) :
    ((checkBlink samples).1 = true ↔
      max (diffInRegion (samples 0).frame (samples 1).frame
            (computeEyeBand box).ex (computeEyeBand box).ey
            (computeEyeBand box).ew (computeEyeBand box).eh)
          (diffInRegion (samples 1).frame (samples 2).frame
            (computeEyeBand box).ex (computeEyeBand box).ey
            (computeEyeBand box).ew (computeEyeBand box).eh) > 6 / 100) ∧
    (diffInRegion (samples 0).frame (samples 1).frame
        (computeEyeBand box).ex (computeEyeBand box).ey
        (computeEyeBand box).ew (computeEyeBand box).eh > 6 / 100 →
      (checkBlink samples).1 = true) ∧
    ((samples 1).frame = (samples 0).frame →
      (samples 2).frame = (samples 0).frame →
      (checkBlink samples).1 = false) := by
  refine ⟨?_, ?_, ?_⟩
  · simp [checkBlink, hbox]
  · intro hs
    simp only [checkBlink, hbox, decide_eq_true_eq]
    exact lt_max_of_lt_left hs
  · intro h1 h2
    simp only [checkBlink, hbox, h1, h2, diffInRegion_self]
    norm_num

/-- A uniform 2×4 frame. -/
def frameA : Frame := ⟨2, 4, fun _ => 10⟩

/-- The 2×4 frame whose second pixel row (flat bytes 8..15) brightened by
60 levels relative to `frameA`. -/
def frameB : Frame := ⟨2, 4, fun i => if 8 ≤ i ∧ i ≤ 15 then 70 else 10⟩

/-- The face box `{x:0, y:0, width:2, height:4}` covering those frames;
its eye band is the second pixel row. -/
def boxA : FaceBox := ⟨0, 0, 2, 4⟩

/-- A blink capture stream: face found on the first sample, eye band
fully changed between samples 0 and 1. -/
def samplesBlink : ℕ → Sample := fun n =>
  match n with
  | 0 => ⟨frameA, some boxA⟩
  | 1 => ⟨frameB, none⟩
  | _ => ⟨frameA, none⟩

theorem c6_blink_witness :
    ((checkBlink samplesBlink).1 = true ↔
      max (diffInRegion (samplesBlink 0).frame (samplesBlink 1).frame
            (computeEyeBand boxA).ex (computeEyeBand boxA).ey
            (computeEyeBand boxA).ew (computeEyeBand boxA).eh)
          (diffInRegion (samplesBlink 1).frame (samplesBlink 2).frame
            (computeEyeBand boxA).ex (computeEyeBand boxA).ey
            (computeEyeBand boxA).ew (computeEyeBand boxA).eh) > 6 / 100) ∧
    (diffInRegion (samplesBlink 0).frame (samplesBlink 1).frame
        (computeEyeBand boxA).ex (computeEyeBand boxA).ey
        (computeEyeBand boxA).ew (computeEyeBand boxA).eh > 6 / 100 →
      (checkBlink samplesBlink).1 = true) ∧
    ((samplesBlink 1).frame = (samplesBlink 0).frame →
      (samplesBlink 2).frame = (samplesBlink 0).frame →
      (checkBlink samplesBlink).1 = false) :=
  c6_blink samplesBlink boxA rfl

-- The witness stream indeed blinks: its first-pair fraction is 1 and the
-- check succeeds with all three samples captured.
example : checkBlink samplesBlink = (true, 3) := by
  norm_num [checkBlink, samplesBlink, boxA, frameA, frameB, computeEyeBand,
    diffInRegion, diffCount, List.range_succ]

/-- C7: the heuristic fallback returns `none` or a box of positive width
and height lying fully inside the frame bounds. -/
theorem c7_box_in_bounds (f : Frame) :
    detectFaceBoxHeuristic f = none ∨
    ∃ b, detectFaceBoxHeuristic f = some b ∧
      0 < b.width ∧ 0 < b.height ∧ 0 ≤ b.x ∧ 0 ≤ b.y ∧
      b.x + b.width ≤ (f.width : ℚ) ∧ b.y + b.height ≤ (f.height : ℚ) := by
  unfold detectFaceBoxHeuristic
  cases hc : centerVariance f with
  | none => exact Or.inl rfl
  | some cv =>
      cases he : meanEdgeVariance f with
      | none => exact Or.inl rfl
      | some ev =>
          by_cases hgt : cv > ev * (115 / 100)
          · refine Or.inr ⟨⟨(cxOf f : ℚ), (cyOf f : ℚ), (cwOf f : ℚ), (chOf f : ℚ)⟩,
              by simp [hgt], ?_, ?_, ?_, ?_, ?_, ?_⟩
            · have : cwOf f * chOf f ≠ 0 := by
                intro h0
                rw [centerVariance, regionVariance, if_pos h0] at hc
                exact Option.noConfusion hc
              have hpos : 0 < cwOf f :=
                Nat.pos_of_ne_zero fun h0 => this (by simp [h0])
              show (0 : ℚ) < (cwOf f : ℚ)
              exact_mod_cast hpos
            · have : cwOf f * chOf f ≠ 0 := by
                intro h0
                rw [centerVariance, regionVariance, if_pos h0] at hc
                exact Option.noConfusion hc
              have hpos : 0 < chOf f :=
                Nat.pos_of_ne_zero fun h0 => this (by simp [h0])
              show (0 : ℚ) < (chOf f : ℚ)
              exact_mod_cast hpos
            · positivity
            · positivity
            · have hcx : (cxOf f : ℚ) ≤ (f.width : ℚ) * (2 / 10) :=
                Nat.floor_le (by positivity)
              have hcw : (cwOf f : ℚ) ≤ (f.width : ℚ) * (6 / 10) :=
                Nat.floor_le (by positivity)
              linarith
            · have hcy : (cyOf f : ℚ) ≤ (f.height : ℚ) * (2 / 10) :=
                Nat.floor_le (by positivity)
              have hch : (chOf f : ℚ) ≤ (f.height : ℚ) * (6 / 10) :=
                Nat.floor_le (by positivity)
              linarith
          · exact Or.inl (by simp [hgt])

/-- C8: evaluation of `detectFaceBox` at the failing input and around it.
The recovered paths of the claim do hold of the code: an unreadable canvas
(no 2d context) yields `none` at once, and a missing, erroring, or
empty-result platform detector is swallowed and falls through to the
heuristic.  But a zero-sized frame does not yield `none`: the fallthrough
reaches `ctx.getImageData(0, 0, 0, 480)` at source line 34, outside the
`try`/`catch`, and `detectFaceBox` raises `IndexSizeError` — against the
claim and the spec's `MalformedFrame (recovered locally)` taxonomy. -/
theorem c8_zero_size_throws :
    detectFaceBox true .unsupported ⟨0, 480, fun _ => 0⟩ =
      .error .indexSizeError ∧
    detectFaceBox false .noFaces frameFlat5 = .ok none ∧
    detectFaceBox true .errored frameFlat5 =
      .ok (detectFaceBoxHeuristic frameFlat5) ∧
    detectFaceBox true .noFaces frameFlat5 =
      .ok (detectFaceBoxHeuristic frameFlat5) := by
  refine ⟨rfl, rfl, rfl, rfl⟩

/-- C9: the heuristic fallback is a deterministic function of the pixel
input: two frames of equal dimensions and pointwise-equal pixel data give
identical detection results. -/
theorem c9_heuristic_deterministic (f g : Frame)
    (hw : f.width = g.width) (hh : f.height = g.height)
    (hd : ∀ i, f.data i = g.data i) :
    detectFaceBoxHeuristic f = detectFaceBoxHeuristic g := by
  simp only [detectFaceBoxHeuristic, centerVariance, meanEdgeVariance,
    regionVariance, regionSum, luminance, cxOf, cyOf, cwOf, chOf, hw, hh, hd]

theorem c9_heuristic_deterministic_witness :
    detectFaceBoxHeuristic ⟨3, 3, fun i => i + 0⟩ =
      detectFaceBoxHeuristic ⟨3, 3, fun i => i⟩ :=
  c9_heuristic_deterministic ⟨3, 3, fun i => i + 0⟩ ⟨3, 3, fun i => i⟩
    rfl rfl fun i => Nat.add_zero i

/-- C10: when the first sample of the blink check carries no face box,
the check returns `false` after that single capture; the result does not
depend on the later samples, so no box-size-delta fallback comparison is
attempted. -/
theorem c10_blink_early_exit (samples : ℕ → Sample)
    (h : (samples 0).box = none) :
    checkBlink samples = (false, 1) := by
  simp [checkBlink, h]

/-- A capture stream in which no sample ever carries a face box. -/
def samplesNoBox : ℕ → Sample := fun _ => ⟨frameA, none⟩

theorem c10_blink_early_exit_witness :
    checkBlink samplesNoBox = (false, 1) :=
  c10_blink_early_exit samplesNoBox rfl
